import Mathlib

/-!
# Verification of the Twilio/OpenAI media-stream relay (`main_2.py`)

This file is a shallow embedding of the per-session relay logic of
`handle_media_stream` in `main_2.py`, together with theorems settling the
frozen claims about it.

Modelling conventions:
* The per-session closure variables (`stream_sid`, `latest_media_timestamp`,
  `last_assistant_item`, `mark_queue`, `response_start_timestamp_twilio`)
  become the fields of `SessionState`.
* Inbound messages on each websocket leg become inductive types; the effect
  of processing one message is a pure step function returning the new state
  together with the list of messages emitted on each outgoing leg.
* Python exceptions that escape a handler are modelled with `Except`:
  `json.loads` raising on unparseable input and `data["event"]` raising
  `KeyError` are the `invalidJson` / `missingEvent` inputs, which the
  reference `receive_from_twilio` does not catch (it only catches
  `WebSocketDisconnect`), so they abort the relay loop.
* Python truthiness of an optional string (`if stream_sid:`,
  `if last_assistant_item:`, `if response.get("item_id"):`) is `pyTruthy`:
  `None` and the empty string are falsy.
* Machine integers: Twilio media timestamps go through Python `int`, which
  is unbounded, so they are embedded as `Int` with exact arithmetic.
-/

/-- The per-session mutable state of `handle_media_stream`
(`main_2.py`, lines 147-151): `stream_sid = None`,
`latest_media_timestamp = 0`, `last_assistant_item = None`,
`mark_queue = []`, `response_start_timestamp_twilio = None`. -/
structure SessionState where
  streamSid : Option String
  latestMediaTimestamp : Int
  lastAssistantItem : Option String
  markQueue : List String
  responseStartTimestampTwilio : Option Int
deriving DecidableEq, Repr

/-- The initial session state established at lines 147-151. -/
def initialState : SessionState :=
  { streamSid := none
    latestMediaTimestamp := 0
    lastAssistantItem := none
    markQueue := []
    responseStartTimestampTwilio := none }

/-- Python truthiness of an optional string: `None` and `""` are falsy,
every other string is truthy. -/
def pyTruthy : Option String → Bool
  | none => false
  | some s => s ≠ ""

/-- Messages arriving on the Twilio websocket leg, as seen by
`receive_from_twilio` (lines 173-198) after `json.loads`:
* `invalidJson`: a frame `json.loads` cannot parse (raises
  `json.JSONDecodeError`);
* `missingEvent`: a parsed object with no `"event"` key (the subscript
  `data["event"]` raises `KeyError`);
* `media ts payload`: `{"event": "media", "media": {"timestamp": ts,
  "payload": payload}}`;
* `start sid`: `{"event": "start", "start": {"streamSid": sid}}`;
* `mark`: `{"event": "mark", ...}`;
* `stop`: `{"event": "stop"}` — the reference code has no branch for it;
* `other ev`: any other event name. -/
inductive TwilioIn where
  | invalidJson : TwilioIn
  | missingEvent : TwilioIn
  | media (ts : Int) (payload : String) : TwilioIn
  | start (sid : String) : TwilioIn
  | mark : TwilioIn
  | stop : TwilioIn
  | other (ev : String) : TwilioIn
deriving DecidableEq, Repr

/-- Messages the relay sends to the OpenAI websocket. -/
inductive OpenAIOut where
  | audioAppend (payload : String) : OpenAIOut
  | truncate (itemId : String) (contentIndex : Nat) (audioEndMs : Int) : OpenAIOut
deriving DecidableEq, Repr

/-- Messages the relay sends back to the Twilio websocket. -/
inductive TwilioOut where
  | media (sid : Option String) (payload : List Char) : TwilioOut
  | mark (sid : Option String) : TwilioOut
  | clear (sid : Option String) : TwilioOut
deriving DecidableEq, Repr

/-- Exceptions escaping `receive_from_twilio`'s loop body: the inner `try`
only catches `WebSocketDisconnect`, so these terminate the coroutine. -/
inductive RelayErr where
  | jsonDecodeError : RelayErr
  | keyError : RelayErr
deriving DecidableEq, Repr

/-- One iteration of the `async for` loop in `receive_from_twilio`
(`main_2.py`, lines 177-194), processing one inbound Twilio frame.
`wsOpen` is `openai_ws.open` at the moment of the check on line 179.

Fidelity notes, from the reference source:
* On `media` the timestamp update (line 180) and the forward (line 185)
  both sit under `data["event"] == "media" and openai_ws.open`; with the
  connection closed the frame matches no branch and nothing happens.
* On `start` only `stream_sid` and `latest_media_timestamp` change: the
  `nonlocal` declaration on line 175 names only those two, so the
  assignments `response_start_timestamp_twilio = None` and
  `last_assistant_item = None` on lines 189 and 191 bind names local to
  `receive_from_twilio` and leave the session fields read by
  `send_to_twilio` / `handle_speech_started_event` unchanged; `mark_queue`
  is not touched at all.
* On `mark`, `mark_queue.pop(0)` runs only when the queue is non-empty
  (lines 192-194).
* `stop` and any unrecognized event name match no branch. -/
def receiveStep (wsOpen : Bool) (st : SessionState) :
    TwilioIn → Except RelayErr (SessionState × List OpenAIOut)
  | .invalidJson => .error .jsonDecodeError
  | .missingEvent => .error .keyError
  | .media ts payload =>
      if wsOpen then
        .ok ({ st with latestMediaTimestamp := ts }, [.audioAppend payload])
      else
        .ok (st, [])
  | .start sid =>
      .ok ({ st with streamSid := some sid, latestMediaTimestamp := 0 }, [])
  | .mark =>
      .ok (if st.markQueue.isEmpty then st
           else { st with markQueue := st.markQueue.tail }, [])
  | .stop => .ok (st, [])
  | .other _ => .ok (st, [])

/-- The standard base64 alphabet, in index order, as used by Python's
`base64.b64encode` / `base64.b64decode` (`main_2.py`, lines 213-215). -/
def b64chars : List Char :=
  ['A', 'B', 'C', 'D', 'E', 'F', 'G', 'H', 'I', 'J', 'K', 'L', 'M',
   'N', 'O', 'P', 'Q', 'R', 'S', 'T', 'U', 'V', 'W', 'X', 'Y', 'Z',
   'a', 'b', 'c', 'd', 'e', 'f', 'g', 'h', 'i', 'j', 'k', 'l', 'm',
   'n', 'o', 'p', 'q', 'r', 's', 't', 'u', 'v', 'w', 'x', 'y', 'z',
   '0', '1', '2', '3', '4', '5', '6', '7', '8', '9', '+', '/']

/-- Index of a character in a character list (first occurrence). -/
def idxOf? (c : Char) : List Char → Option Nat
  | [] => none
  | x :: xs => if x = c then some 0 else (idxOf? c xs).map (· + 1)

/-- The character encoding a six-bit group. -/
def sextetToChar (n : Nat) : Char := b64chars.getD n 'A'

/-- Standard base64 encoding of a byte sequence (bytes as `Nat` values
below 256), exactly as produced by Python's `base64.b64encode`: groups of
three bytes become four alphabet characters; a trailing group of one or
two bytes is padded with `==` or `=`. -/
def encodeB64 : List Nat → List Char
  | [] => []
  | [b1] =>
      [sextetToChar (b1 / 4), sextetToChar (b1 % 4 * 16), '=', '=']
  | [b1, b2] =>
      [sextetToChar (b1 / 4), sextetToChar (b1 % 4 * 16 + b2 / 16),
       sextetToChar (b2 % 16 * 4), '=']
  | b1 :: b2 :: b3 :: rest =>
      sextetToChar (b1 / 4) :: sextetToChar (b1 % 4 * 16 + b2 / 16) ::
      sextetToChar (b2 % 16 * 4 + b3 / 64) :: sextetToChar (b3 % 64) ::
      encodeB64 rest

/-- Base64 decoding restricted to canonical, padded input: length a
multiple of four, characters from the alphabet, padding only in the final
group, and the unused low bits of the last data character equal to zero.
On such input it computes exactly what Python's `base64.b64decode` does;
on anything else it returns `none` (Python's decoder is laxer on some
non-canonical inputs, which no claim quantifies over). -/
def decodeB64 : List Char → Option (List Nat)
  | [] => some []
  | [c1, c2, '=', '='] =>
      match idxOf? c1 b64chars, idxOf? c2 b64chars with
      | some s1, some s2 =>
          if s2 % 16 = 0 then some [s1 * 4 + s2 / 16] else none
      | _, _ => none
  | [c1, c2, c3, '='] =>
      match idxOf? c1 b64chars, idxOf? c2 b64chars, idxOf? c3 b64chars with
      | some s1, some s2, some s3 =>
          if s3 % 4 = 0 then
            some [s1 * 4 + s2 / 16, s2 % 16 * 16 + s3 / 4]
          else none
      | _, _, _ => none
  | c1 :: c2 :: c3 :: c4 :: rest =>
      match idxOf? c1 b64chars, idxOf? c2 b64chars,
            idxOf? c3 b64chars, idxOf? c4 b64chars with
      | some s1, some s2, some s3, some s4 =>
          match decodeB64 rest with
          | some bs =>
              some ((s1 * 4 + s2 / 16) :: (s2 % 16 * 16 + s3 / 4) ::
                    (s3 % 4 * 64 + s4) :: bs)
          | none => none
      | _, _, _, _ => none
  | _ => none

/-- The `async for` loop of `receive_from_twilio` over a finite inbound
trace: processes frames in order, accumulating the messages sent to the
OpenAI leg, and aborts with the first uncaught exception. -/
def receiveLoop (wsOpen : Bool) (st : SessionState) :
    List TwilioIn → Except RelayErr (SessionState × List OpenAIOut)
  | [] => .ok (st, [])
  | m :: rest =>
      match receiveStep wsOpen st m with
      | .error e => .error e
      | .ok (st1, outs) =>
          match receiveLoop wsOpen st1 rest with
          | .error e => .error e
          | .ok (st2, outs2) => .ok (st2, outs ++ outs2)

/-- Messages arriving on the OpenAI websocket leg, as dispatched by
`send_to_twilio` (`main_2.py`, lines 200-243):
* `audioDelta delta itemId`: a `response.audio.delta` event that has a
  `"delta"` key (the guard on lines 209-212); `itemId` is
  `response.get("item_id")`;
* `audioDeltaNoDelta`: a `response.audio.delta` event without a `"delta"`
  key — the guard fails and nothing happens;
* `speechStarted`: `input_audio_buffer.speech_started`;
* `responseDone`: `response.done` — only logged (it is in
  `LOG_EVENT_TYPES`), no handler;
* `other ty`: any other event type. -/
inductive OpenAIIn where
  | audioDelta (delta : List Char) (itemId : Option String) : OpenAIIn
  | audioDeltaNoDelta : OpenAIIn
  | speechStarted : OpenAIIn
  | responseDone : OpenAIIn
  | other (ty : String) : OpenAIIn
deriving DecidableEq, Repr

/-- The exception raised by `base64.b64decode` on input it cannot decode
(`binascii.Error`); `send_to_twilio` catches every exception on line 242,
ending its loop. -/
inductive SendErr where
  | binasciiError : SendErr
deriving DecidableEq, Repr

/-- `handle_speech_started_event` (`main_2.py`, lines 245-274). Under the
guard `mark_queue and response_start_timestamp_twilio is not None` it:
computes `elapsed_time = latest_media_timestamp -
response_start_timestamp_twilio`; if `last_assistant_item` is truthy,
sends one `conversation.item.truncate` carrying that item id, content
index 0 and `elapsed_time`; sends one `clear` frame to Twilio; then
clears `mark_queue`, `last_assistant_item` and
`response_start_timestamp_twilio`. Returns the new state, the messages
sent to Twilio, and the messages sent to OpenAI. -/
def handleSpeechStartedEvent (st : SessionState) :
    SessionState × List TwilioOut × List OpenAIOut :=
  match st.responseStartTimestampTwilio with
  | none => (st, [], [])
  | some t0 =>
      if st.markQueue.isEmpty then (st, [], [])
      else
        let elapsed := st.latestMediaTimestamp - t0
        let aiOuts :=
          if pyTruthy st.lastAssistantItem then
            [OpenAIOut.truncate (st.lastAssistantItem.getD "") 0 elapsed]
          else []
        ({ st with markQueue := [], lastAssistantItem := none,
                   responseStartTimestampTwilio := none },
         [TwilioOut.clear st.streamSid], aiOuts)

/-- One iteration of the `async for` loop in `send_to_twilio`
(`main_2.py`, lines 204-241), processing one OpenAI event.

On `audioDelta` (lines 209-233): the payload is
`b64encode(b64decode(delta))` (an exception from `b64decode` ends the
loop via the broad `except` on line 242); the media frame carrying it is
tagged with the current `stream_sid`; if
`response_start_timestamp_twilio` is `None` it is set to
`latest_media_timestamp`; if the event carries a truthy `item_id`,
`last_assistant_item` is set to it; finally `send_mark` (lines 276-284)
sends a mark frame and appends `"responsePart"` to `mark_queue`, but only
when `stream_sid` is truthy.

On `speechStarted` (lines 235-241): `handle_speech_started_event` runs
only when `last_assistant_item` is truthy. All other events only get
logged. -/
def sendStep (st : SessionState) :
    OpenAIIn → Except SendErr (SessionState × List TwilioOut × List OpenAIOut)
  | .audioDelta delta itemId =>
      match decodeB64 delta with
      | none => .error .binasciiError
      | some bs =>
          let payload := encodeB64 bs
          let st1 :=
            if st.responseStartTimestampTwilio = none then
              { st with responseStartTimestampTwilio :=
                          some st.latestMediaTimestamp }
            else st
          let st2 :=
            if pyTruthy itemId then { st1 with lastAssistantItem := itemId }
            else st1
          if pyTruthy st.streamSid then
            .ok ({ st2 with markQueue := st2.markQueue ++ ["responsePart"] },
                 [TwilioOut.media st.streamSid payload,
                  TwilioOut.mark st.streamSid], [])
          else
            .ok (st2, [TwilioOut.media st.streamSid payload], [])
  | .audioDeltaNoDelta => .ok (st, [], [])
  | .speechStarted =>
      if pyTruthy st.lastAssistantItem then .ok (handleSpeechStartedEvent st)
      else .ok (st, [], [])
  | .responseDone => .ok (st, [], [])
  | .other _ => .ok (st, [], [])

/-- Does the session have outstanding (unacknowledged) marks? This is the
truthiness test `if mark_queue:` used by the reference code. -/
def hasOutstanding (st : SessionState) : Bool := !st.markQueue.isEmpty

/-- The two operations touching `mark_queue`, abstracted for the
mark-balance claim: `record` is the append performed by `send_mark`
(line 284) and `ack` is the acknowledgment handling of
`receive_from_twilio` (lines 192-194). -/
inductive MarkEvt where
  | record : MarkEvt
  | ack : MarkEvt
deriving DecidableEq, Repr

/-- Effect of one mark operation on the queue, exactly as in the source:
`record` appends `"responsePart"`; `ack` runs `mark_queue.pop(0)` only
when the queue is non-empty (`if mark_queue:`). -/
def markStep (q : List String) : MarkEvt → List String
  | .record => q ++ ["responsePart"]
  | .ack => if q.isEmpty then q else q.tail

/-- Folding a sequence of mark operations over a queue. -/
def markRun (q : List String) : List MarkEvt → List String
  | [] => q
  | e :: evs => markRun (markStep q e) evs

/-- Number of `record` operations in a trace. -/
def nRec : List MarkEvt → Nat
  | [] => 0
  | .record :: evs => nRec evs + 1
  | .ack :: evs => nRec evs

/-- Number of `ack` operations in a trace. -/
def nAck : List MarkEvt → Nat
  | [] => 0
  | .record :: evs => nAck evs
  | .ack :: evs => nAck evs + 1

/-- `ackSafe credit evs` holds when, starting from a queue of length
`credit`, every acknowledgment in `evs` finds a non-empty queue. -/
def ackSafe : Nat → List MarkEvt → Bool
  | _, [] => true
  | c, .record :: evs => ackSafe (c + 1) evs
  | c, .ack :: evs => decide (0 < c) && ackSafe (c - 1) evs


/-! ## Helper lemmas: base64 roundtrip -/

/-- A successful index lookup returns a position inside the list whose
element is the character looked up. -/
theorem idxOf_spec : ∀ {l : List Char} {c : Char} {n : Nat},
    idxOf? c l = some n → n < l.length ∧ l.getD n 'A' = c := by
  intro l
  induction l with
  | nil => intro c n h; simp [idxOf?] at h
  | cons x xs ih =>
      intro c n h
      simp only [idxOf?] at h
      by_cases hx : x = c
      · rw [if_pos hx] at h
        injection h with h
        subst h
        exact ⟨by simp, by simp [hx]⟩
      · rw [if_neg hx] at h
        cases hm : idxOf? c xs with
        | none => rw [hm] at h; simp at h
        | some m =>
            rw [hm] at h
            have h : some (m + 1) = some n := h
            injection h with h
            subst h
            obtain ⟨h1, h2⟩ := ih hm
            exact ⟨by simpa using h1, by simpa [List.getD_cons_succ] using h2⟩

/-- Decoding a character to a sextet and re-encoding gives the character
back, and the sextet is below 64. -/
theorem sextet_inv {c : Char} {n : Nat} (h : idxOf? c b64chars = some n) :
    sextetToChar n = c ∧ n < 64 := by
  obtain ⟨h1, h2⟩ := idxOf_spec h
  exact ⟨h2, by simpa using h1⟩

/-- Re-encoding the bytes of any canonically decodable base64 text gives
back exactly the original text: the decode-then-encode pass of the audio
delta handler is the identity on canonical padded base64. -/
theorem encode_decode (cs : List Char) :
    ∀ bs, decodeB64 cs = some bs → encodeB64 bs = cs := by
  induction cs using decodeB64.induct with
  | case1 =>
      intro bs h
      have h2 : some ([] : List Nat) = some bs := h
      injection h2 with h2
      subst h2
      rfl
  | case2 c1 c2 s1 s2 i2 i1 hm =>
      intro bs h
      simp only [decodeB64, i1, i2, if_pos hm] at h
      injection h with h
      subst h
      obtain ⟨e1, b1⟩ := sextet_inv i1
      obtain ⟨e2, b2⟩ := sextet_inv i2
      have t1 : (s1 * 4 + s2 / 16) / 4 = s1 := by omega
      have t2 : (s1 * 4 + s2 / 16) % 4 * 16 = s2 := by omega
      simp only [encodeB64, t1, t2, e1, e2]
  | case3 c1 c2 s1 s2 i2 i1 hm =>
      intro bs h
      simp only [decodeB64, i1, i2, if_neg hm] at h
      exact Option.noConfusion h
  | case4 c1 c2 hno =>
      intro bs h
      exfalso
      cases hi1 : idxOf? c1 b64chars with
      | none => simp [decodeB64, hi1] at h
      | some s1 =>
          cases hi2 : idxOf? c2 b64chars with
          | none => simp [decodeB64, hi1, hi2] at h
          | some s2 => exact hno s1 s2 hi1 hi2
  | case5 c1 c2 c3 hne s1 s2 s3 i3 i2 i1 hm =>
      intro bs h
      simp only [decodeB64, i1, i2, i3, if_pos hm] at h
      injection h with h
      subst h
      obtain ⟨e1, b1⟩ := sextet_inv i1
      obtain ⟨e2, b2⟩ := sextet_inv i2
      obtain ⟨e3, b3⟩ := sextet_inv i3
      have t1 : (s1 * 4 + s2 / 16) / 4 = s1 := by omega
      have t2 : (s1 * 4 + s2 / 16) % 4 * 16 + (s2 % 16 * 16 + s3 / 4) / 16 = s2 := by
        omega
      have t3 : (s2 % 16 * 16 + s3 / 4) % 16 * 4 = s3 := by omega
      simp only [encodeB64, t1, t2, t3, e1, e2, e3]
  | case6 c1 c2 c3 hne s1 s2 s3 i3 i2 i1 hm =>
      intro bs h
      simp only [decodeB64, i1, i2, i3, if_neg hm] at h
      exact Option.noConfusion h
  | case7 c1 c2 c3 hne hno =>
      intro bs h
      exfalso
      cases hi1 : idxOf? c1 b64chars with
      | none => simp [decodeB64, hi1] at h
      | some s1 =>
          cases hi2 : idxOf? c2 b64chars with
          | none => simp [decodeB64, hi1, hi2] at h
          | some s2 =>
              cases hi3 : idxOf? c3 b64chars with
              | none => simp [decodeB64, hi1, hi2, hi3] at h
              | some s3 => exact hno s1 s2 s3 hi1 hi2 hi3
  | case8 c1 c2 c3 c4 rest g1 g2 s1 s2 s3 s4 i4 i3 i2 i1 bs0 hrest ih =>
      intro bs h
      simp only [decodeB64, i1, i2, i3, i4, hrest] at h
      injection h with h
      subst h
      obtain ⟨e1, b1⟩ := sextet_inv i1
      obtain ⟨e2, b2⟩ := sextet_inv i2
      obtain ⟨e3, b3⟩ := sextet_inv i3
      obtain ⟨e4, b4⟩ := sextet_inv i4
      have t1 : (s1 * 4 + s2 / 16) / 4 = s1 := by omega
      have t2 : (s1 * 4 + s2 / 16) % 4 * 16 + (s2 % 16 * 16 + s3 / 4) / 16 = s2 := by
        omega
      have t3 : (s2 % 16 * 16 + s3 / 4) % 16 * 4 + (s3 % 4 * 64 + s4) / 64 = s3 := by
        omega
      have t4 : (s3 % 4 * 64 + s4) % 64 = s4 := by omega
      simp only [encodeB64, t1, t2, t3, t4, e1, e2, e3, e4, ih bs0 hrest]
  | case9 c1 c2 c3 c4 rest g1 g2 s1 s2 s3 s4 i4 i3 i2 i1 hrest =>
      intro bs h
      simp only [decodeB64, i1, i2, i3, i4, hrest] at h
      exact Option.noConfusion h
  | case10 c1 c2 c3 c4 rest g1 g2 hno =>
      intro bs h
      exfalso
      cases hi1 : idxOf? c1 b64chars with
      | none => simp [decodeB64, hi1] at h
      | some s1 =>
          cases hi2 : idxOf? c2 b64chars with
          | none => simp [decodeB64, hi1, hi2] at h
          | some s2 =>
              cases hi3 : idxOf? c3 b64chars with
              | none => simp [decodeB64, hi1, hi2, hi3] at h
              | some s3 =>
                  cases hi4 : idxOf? c4 b64chars with
                  | none => simp [decodeB64, hi1, hi2, hi3, hi4] at h
                  | some s4 => exact hno s1 s2 s3 s4 hi1 hi2 hi3 hi4
  | case11 x hne =>
      intro bs h
      simp only [decodeB64] at h
      exact Option.noConfusion h

/-! ## Claim theorems: the Twilio-inbound relay -/

/-- C2 (code behavior at the failing input): processing a stream-start
event from a session that has an in-flight response leaves `markQueue`,
`lastAssistantItem` and `responseStartTimestampTwilio` untouched — only
`streamSid` and `latestMediaTimestamp` are reset. The resets of the other
fields intended by lines 189 and 191 of `main_2.py` bind names local to
`receive_from_twilio` (they are missing from the `nonlocal` declaration
on line 175), and `mark_queue` is never cleared, contradicting the reset
invariant claimed by the spec. -/
theorem startEvent_code_behavior :
    receiveStep true
        { streamSid := some "s1", latestMediaTimestamp := 250,
          lastAssistantItem := some "item1", markQueue := ["responsePart"],
          responseStartTimestampTwilio := some 100 }
        (TwilioIn.start "s2")
      = .ok ({ streamSid := some "s2", latestMediaTimestamp := 0,
               lastAssistantItem := some "item1",
               markQueue := ["responsePart"],
               responseStartTimestampTwilio := some 100 }, [])
    ∧ (some "item1" : Option String) ≠ none
    ∧ (["responsePart"] : List String) ≠ []
    ∧ (some 100 : Option Int) ≠ none := by
  refine ⟨rfl, by decide, by decide, by decide⟩

/-- C5 (counterexample): a media frame processed while the AI connection
is closed does **not** update `latestMediaTimestamp` — the update sits
inside the `openai_ws.open` guard, so the whole frame is ignored. The
claim states the clock is updated for every processed media frame. -/
theorem media_clock_counterexample :
    receiveStep false
        { streamSid := none, latestMediaTimestamp := 5,
          lastAssistantItem := none, markQueue := [],
          responseStartTimestampTwilio := none }
        (TwilioIn.media 7 "pp")
      = .ok ({ streamSid := none, latestMediaTimestamp := 5,
               lastAssistantItem := none, markQueue := [],
               responseStartTimestampTwilio := none }, [])
    ∧ (5 : Int) ≠ 7 := by
  refine ⟨rfl, by decide⟩

/-- C5 (amended): when the AI connection is open, a media frame sets
`latestMediaTimestamp` to the frame's timestamp (last-write, even if
lower than the previous value) and forwards the payload as an
input-buffer append; when the connection is closed, neither happens — the
frame is dropped without error and the relay continues. -/
theorem media_clock_amended (wsOpen : Bool) (st : SessionState)
    (ts : Int) (payload : String) :
    receiveStep wsOpen st (TwilioIn.media ts payload)
      = if wsOpen then
          .ok ({ st with latestMediaTimestamp := ts },
               [OpenAIOut.audioAppend payload])
        else .ok (st, []) := by
  cases wsOpen <;> rfl

/-- C6 (counterexample): an unparseable inbound frame terminates the
relay loop — the subsequent media frame is never processed and the loop
result is the uncaught `json.JSONDecodeError`, contradicting the claim
that malformed messages are dropped and the loop continues. -/
theorem malformed_counterexample :
    receiveLoop true initialState [TwilioIn.invalidJson, TwilioIn.media 7 "p"]
      = .error RelayErr.jsonDecodeError := rfl

/-- C6 (amended): a well-formed JSON message with an unrecognized event
value is dropped and the loop continues unchanged; but a message that is
unparseable JSON, or that lacks the `"event"` key, raises an uncaught
exception (`json.JSONDecodeError` / `KeyError`) that terminates the
relay loop — only `WebSocketDisconnect` is caught. -/
theorem malformed_amended (wsOpen : Bool) (st : SessionState) (ev : String)
    (rest : List TwilioIn) :
    receiveStep wsOpen st (TwilioIn.other ev) = .ok (st, [])
    ∧ receiveLoop wsOpen st (TwilioIn.other ev :: rest)
        = receiveLoop wsOpen st rest
    ∧ receiveStep wsOpen st TwilioIn.invalidJson
        = .error RelayErr.jsonDecodeError
    ∧ receiveLoop wsOpen st (TwilioIn.invalidJson :: rest)
        = .error RelayErr.jsonDecodeError
    ∧ receiveStep wsOpen st TwilioIn.missingEvent = .error RelayErr.keyError
    ∧ receiveLoop wsOpen st (TwilioIn.missingEvent :: rest)
        = .error RelayErr.keyError := by
  refine ⟨rfl, ?_, rfl, rfl, rfl, rfl⟩
  show (match receiveLoop wsOpen st rest with
        | .error e => .error e
        | .ok (st2, outs2) => .ok (st2, List.nil ++ outs2))
      = receiveLoop wsOpen st rest
  cases h : receiveLoop wsOpen st rest with
  | error e => rfl
  | ok p => rfl

/-- C7 (counterexample): a stop event does not end the inbound relay
loop — the media frame following it is still processed (the timestamp
advances to 9 and the payload is forwarded), because the reference code
has no branch for `"stop"` and treats it like any unrecognized event. -/
theorem stop_counterexample :
    receiveLoop true initialState [TwilioIn.stop, TwilioIn.media 9 "p"]
      = .ok ({ initialState with latestMediaTimestamp := 9 },
             [OpenAIOut.audioAppend "p"]) := rfl

/-- C7 (amended): a stop event is ignored by the relay loop exactly like
an unrecognized event: it changes no state, emits nothing, and the loop
continues with the remaining events; the session ends only when the
websocket itself disconnects. -/
theorem stop_amended (wsOpen : Bool) (st : SessionState)
    (rest : List TwilioIn) :
    receiveStep wsOpen st TwilioIn.stop = .ok (st, [])
    ∧ receiveLoop wsOpen st (TwilioIn.stop :: rest)
        = receiveLoop wsOpen st rest := by
  refine ⟨rfl, ?_⟩
  show (match receiveLoop wsOpen st rest with
        | .error e => .error e
        | .ok (st2, outs2) => .ok (st2, List.nil ++ outs2))
      = receiveLoop wsOpen st rest
  cases h : receiveLoop wsOpen st rest with
  | error e => rfl
  | ok p => rfl

/-! ## Claim theorems: the OpenAI-outbound relay and the mark queue -/

/-- C9: for every audio-delta event whose delta field is valid canonical
padded base64, the media payload forwarded to the telephony connection is
byte-for-byte equal to the received delta (decode-then-re-encode is the
identity on such input), and the forwarded media frame is tagged with the
current `streamSid`. -/
theorem b64_passthrough (st : SessionState) (delta : List Char)
    (bs : List Nat) (itemId : Option String)
    (hdec : decodeB64 delta = some bs) :
    ∃ st' outs aiOuts,
      sendStep st (OpenAIIn.audioDelta delta itemId) = .ok (st', outs, aiOuts)
      ∧ outs.head? = some (TwilioOut.media st.streamSid delta) := by
  have hre : encodeB64 bs = delta := encode_decode delta bs hdec
  simp only [sendStep, hdec]
  cases hsid : pyTruthy st.streamSid
  · rw [if_neg (by simp [hsid])]
    exact ⟨_, _, _, rfl, by simp [hre]⟩
  · rw [if_pos rfl]
    exact ⟨_, _, _, rfl, by simp [hre]⟩

/-- C10: an audio-delta processed while `streamSid` is still unset is
still forwarded to the telephony connection as a media frame with a null
stream id, but no mark message is emitted and nothing is appended to
`markQueue`; in particular with an empty queue the session still reports
no outstanding marks even though audio was sent. -/
theorem nullSid_delta (st : SessionState) (delta : List Char)
    (bs : List Nat) (itemId : Option String)
    (hsid : st.streamSid = none) (hdec : decodeB64 delta = some bs) :
    ∃ st',
      sendStep st (OpenAIIn.audioDelta delta itemId)
        = .ok (st', [TwilioOut.media none (encodeB64 bs)], [])
      ∧ st'.markQueue = st.markQueue
      ∧ (st.markQueue = [] → hasOutstanding st' = false) := by
  simp only [sendStep, hdec]
  rw [if_neg (by simp [hsid, pyTruthy])]
  rw [hsid]
  refine ⟨_, rfl, ?_, ?_⟩
  · split <;> split <;> rfl
  · intro h
    split <;> split <;> simp [hasOutstanding, h]

/-- C1: when the first audio delta of a response is observed,
`responseStartTimestampTwilio` is set to the then-current
`latestMediaTimestamp` (call it T0); a speech-started event processed
later with `lastAssistantItemId` recorded, a non-empty mark queue and
`latestMediaTimestamp = t1` makes the relay emit exactly one truncate
instruction to the AI connection carrying the recorded item id, content
index 0, and `audio_end_ms = t1 - T0` exactly. -/
theorem truncateOffset_correct (st : SessionState) (delta : List Char)
    (bs : List Nat) (i sid : String) (t1 : Int)
    (hsid : st.streamSid = some sid) (hsidne : sid ≠ "")
    (hrst : st.responseStartTimestampTwilio = none)
    (hdec : decodeB64 delta = some bs) (hine : i ≠ "") :
    ∃ st1 outs1,
      sendStep st (OpenAIIn.audioDelta delta (some i)) = .ok (st1, outs1, [])
      ∧ st1.responseStartTimestampTwilio = some st.latestMediaTimestamp
      ∧ st1.lastAssistantItem = some i
      ∧ st1.markQueue = st.markQueue ++ ["responsePart"]
      ∧ ∃ st2 outs2,
          sendStep { st1 with latestMediaTimestamp := t1 }
              OpenAIIn.speechStarted
            = .ok (st2, outs2,
                   [OpenAIOut.truncate i 0 (t1 - st.latestMediaTimestamp)]) := by
  have htri : pyTruthy (some i) = true := by simp [pyTruthy, hine]
  have htrs : pyTruthy st.streamSid = true := by simp [hsid, pyTruthy, hsidne]
  have hstep1 : sendStep st (OpenAIIn.audioDelta delta (some i))
      = .ok ({ streamSid := st.streamSid,
               latestMediaTimestamp := st.latestMediaTimestamp,
               lastAssistantItem := some i,
               markQueue := st.markQueue ++ ["responsePart"],
               responseStartTimestampTwilio := some st.latestMediaTimestamp },
             [TwilioOut.media st.streamSid (encodeB64 bs),
              TwilioOut.mark st.streamSid], []) := by
    simp [sendStep, hdec, hrst, htri, htrs]
  have hstep2 : sendStep
      { streamSid := st.streamSid, latestMediaTimestamp := t1,
        lastAssistantItem := some i,
        markQueue := st.markQueue ++ ["responsePart"],
        responseStartTimestampTwilio := some st.latestMediaTimestamp }
      OpenAIIn.speechStarted
      = .ok ({ streamSid := st.streamSid, latestMediaTimestamp := t1,
               lastAssistantItem := none, markQueue := [],
               responseStartTimestampTwilio := none },
             [TwilioOut.clear st.streamSid],
             [OpenAIOut.truncate i 0 (t1 - st.latestMediaTimestamp)]) := by
    simp [sendStep, handleSpeechStartedEvent, pyTruthy, hine]
  exact ⟨_, _, hstep1, rfl, rfl, rfl, _, _, hstep2⟩

/-- C3: invoking the interruption path with `lastAssistantItemId` set,
a non-empty mark queue and `responseStartTimestampTwilio` set emits
exactly one truncate (to OpenAI) and one clear (to Twilio) and leaves the
queue empty with `lastAssistantItemId` and `responseStartTimestampTwilio`
unset; invoking it again immediately emits no message and changes no
state. -/
theorem interrupt_idempotent (st : SessionState) (i : String) (t0 : Int)
    (hi : st.lastAssistantItem = some i) (hine : i ≠ "")
    (hq : st.markQueue ≠ []) (hr : st.responseStartTimestampTwilio = some t0) :
    ∃ st1,
      sendStep st OpenAIIn.speechStarted
        = .ok (st1, [TwilioOut.clear st.streamSid],
               [OpenAIOut.truncate i 0 (st.latestMediaTimestamp - t0)])
      ∧ st1.markQueue = [] ∧ st1.lastAssistantItem = none
      ∧ st1.responseStartTimestampTwilio = none
      ∧ sendStep st1 OpenAIIn.speechStarted = .ok (st1, [], []) := by
  have hqe : st.markQueue.isEmpty = false := by
    cases hcase : st.markQueue with
    | nil => exact absurd hcase hq
    | cons x xs => rfl
  have hstep1 : sendStep st OpenAIIn.speechStarted
      = .ok ({ streamSid := st.streamSid,
               latestMediaTimestamp := st.latestMediaTimestamp,
               lastAssistantItem := none, markQueue := [],
               responseStartTimestampTwilio := none },
             [TwilioOut.clear st.streamSid],
             [OpenAIOut.truncate i 0 (st.latestMediaTimestamp - t0)]) := by
    simp [sendStep, handleSpeechStartedEvent, pyTruthy, hi, hine, hr, hqe]
  have hstep2 : sendStep
      { streamSid := st.streamSid,
        latestMediaTimestamp := st.latestMediaTimestamp,
        lastAssistantItem := none, markQueue := [],
        responseStartTimestampTwilio := none } OpenAIIn.speechStarted
      = .ok ({ streamSid := st.streamSid,
               latestMediaTimestamp := st.latestMediaTimestamp,
               lastAssistantItem := none, markQueue := [],
               responseStartTimestampTwilio := none }, [], []) := by
    simp [sendStep, pyTruthy]
  exact ⟨_, hstep1, rfl, rfl, rfl, hstep2⟩

/-- C8 (amended): `lastAssistantItem` is cleared on interruption
(`handle_speech_started_event` under its guard always returns a state
with the field unset), but a `response.done` event is only logged: it
leaves the whole session state — `lastAssistantItem` included —
unchanged. -/
theorem itemClear_amended (st : SessionState)
    (hq : st.markQueue ≠ []) (hr : st.responseStartTimestampTwilio ≠ none) :
    sendStep st OpenAIIn.responseDone = .ok (st, [], [])
    ∧ (handleSpeechStartedEvent st).1.lastAssistantItem = none := by
  refine ⟨rfl, ?_⟩
  have hqe : st.markQueue.isEmpty = false := by
    cases hcase : st.markQueue with
    | nil => exact absurd hcase hq
    | cons x xs => rfl
  cases hr0 : st.responseStartTimestampTwilio with
  | none => exact absurd hr0 hr
  | some t0 => simp [handleSpeechStartedEvent, hr0, hqe]

/-- C8 (counterexample): after a delta carrying item id `"i1"` the
session records `lastAssistantItem = some "i1"`; processing a
`response.done` event afterwards changes nothing, so the field is still
set, contradicting the claim that it is cleared on completion. -/
theorem itemClear_counterexample :
    sendStep { streamSid := some "s", latestMediaTimestamp := 0,
               lastAssistantItem := none, markQueue := [],
               responseStartTimestampTwilio := none }
        (OpenAIIn.audioDelta ['Q', 'Q', '=', '='] (some "i1"))
      = .ok ({ streamSid := some "s", latestMediaTimestamp := 0,
               lastAssistantItem := some "i1",
               markQueue := ["responsePart"],
               responseStartTimestampTwilio := some 0 },
             [TwilioOut.media (some "s") ['Q', 'Q', '=', '='],
              TwilioOut.mark (some "s")], [])
    ∧ sendStep { streamSid := some "s", latestMediaTimestamp := 0,
                 lastAssistantItem := some "i1",
                 markQueue := ["responsePart"],
                 responseStartTimestampTwilio := some 0 }
        OpenAIIn.responseDone
      = .ok ({ streamSid := some "s", latestMediaTimestamp := 0,
               lastAssistantItem := some "i1",
               markQueue := ["responsePart"],
               responseStartTimestampTwilio := some 0 }, [], [])
    ∧ (some "i1" : Option String) ≠ none := by
  refine ⟨rfl, rfl, by decide⟩

/-- Helper for the mark-queue balance: starting from any queue, if every
acknowledgment in the trace finds a non-empty queue, the final length
plus the acknowledgments equals the initial length plus the records. -/
theorem markRun_len : ∀ (evs : List MarkEvt) (q : List String),
    ackSafe q.length evs = true →
    (markRun q evs).length + nAck evs = q.length + nRec evs := by
  intro evs
  induction evs with
  | nil => intro q h; simp [markRun, nAck, nRec]
  | cons e evs ih =>
      intro q h
      cases e with
      | record =>
          have h1 : ackSafe (q.length + 1) evs = true := by
            simpa [ackSafe] using h
          have h2 := ih (q ++ ["responsePart"])
            (by simpa [List.length_append] using h1)
          simp only [markRun, markStep, nAck, nRec] at h2 ⊢
          simp only [List.length_append, List.length_cons,
            List.length_nil] at h2
          omega
      | ack =>
          simp only [ackSafe, Bool.and_eq_true, decide_eq_true_eq] at h
          obtain ⟨hpos, h1⟩ := h
          have hqe : q.isEmpty = false := by
            cases q with
            | nil => simp at hpos
            | cons x xs => rfl
          have h2 := ih q.tail
            (by simpa [List.length_tail] using h1)
          simp only [markRun, markStep, hqe, nAck, nRec] at h2 ⊢
          have hlt : q.tail.length = q.length - 1 := List.length_tail q
          simp only [Bool.false_eq_true, if_false]
          omega

/-- C4 (counterexample): the interleaving `[ack, record]` has M = 1 ≤
N = 1, yet the final queue length is 1, not N − M = 0: the early
acknowledgment is absorbed on the empty queue and the later record still
lands, so the claimed length equation fails for this interleaving. -/
theorem markQueue_balance_counterexample :
    nAck [MarkEvt.ack, MarkEvt.record] ≤ nRec [MarkEvt.ack, MarkEvt.record]
    ∧ (markRun [] [MarkEvt.ack, MarkEvt.record]).length
        ≠ nRec [MarkEvt.ack, MarkEvt.record]
          - nAck [MarkEvt.ack, MarkEvt.record] := by
  decide

/-- C4 (amended): for every interleaving in which each acknowledgment
arrives while the queue is non-empty (`ackSafe`), the final queue length
equals `nRec − nAck`; an acknowledgment on an empty queue is a silent
no-op; and the session's mark handling is exactly `markStep`'s `ack`
(so the queue length is never negative by construction). -/
theorem markQueue_balance_amended (evs : List MarkEvt)
    (hsafe : ackSafe 0 evs = true) :
    (markRun [] evs).length = nRec evs - nAck evs
    ∧ markStep [] MarkEvt.ack = []
    ∧ ∀ (wsOpen : Bool) (st : SessionState),
        receiveStep wsOpen st TwilioIn.mark
          = .ok ({ st with markQueue := markStep st.markQueue MarkEvt.ack },
                 []) := by
  have h := markRun_len evs [] hsafe
  simp only [List.length_nil, Nat.zero_add] at h
  refine ⟨by omega, rfl, ?_⟩
  intro wsOpen st
  simp only [receiveStep, markStep]
  cases hq : st.markQueue.isEmpty <;> simp [hq]

/-- Witness for C4 (amended) at the concrete trace `[record, ack]`. -/
theorem markQueue_balance_amended_witness :
    ((markRun [] [MarkEvt.record, MarkEvt.ack]).length
        = nRec [MarkEvt.record, MarkEvt.ack]
          - nAck [MarkEvt.record, MarkEvt.ack])
    ∧ markStep [] MarkEvt.ack = []
    ∧ ∀ (wsOpen : Bool) (st : SessionState),
        receiveStep wsOpen st TwilioIn.mark
          = .ok ({ st with markQueue := markStep st.markQueue MarkEvt.ack },
                 []) :=
  markQueue_balance_amended [MarkEvt.record, MarkEvt.ack] (by decide)

/-- Witness for C1 at a concrete session: T0 = 3, t1 = 10, item `"i"`. -/
theorem truncateOffset_correct_witness :
    ∃ st1 outs1,
      sendStep { streamSid := some "s", latestMediaTimestamp := 3,
                 lastAssistantItem := none, markQueue := [],
                 responseStartTimestampTwilio := none }
          (OpenAIIn.audioDelta ['Q', 'Q', '=', '='] (some "i"))
        = .ok (st1, outs1, [])
      ∧ st1.responseStartTimestampTwilio = some 3
      ∧ st1.lastAssistantItem = some "i"
      ∧ st1.markQueue = [] ++ ["responsePart"]
      ∧ ∃ st2 outs2,
          sendStep { st1 with latestMediaTimestamp := 10 }
              OpenAIIn.speechStarted
            = .ok (st2, outs2, [OpenAIOut.truncate "i" 0 (10 - 3)]) :=
  truncateOffset_correct
    { streamSid := some "s", latestMediaTimestamp := 3,
      lastAssistantItem := none, markQueue := [],
      responseStartTimestampTwilio := none }
    ['Q', 'Q', '=', '='] [65] "i" "s" 10 rfl (by decide) rfl rfl (by decide)

/-- Witness for C3 at a concrete session with one outstanding mark. -/
theorem interrupt_idempotent_witness :
    ∃ st1,
      sendStep { streamSid := some "s", latestMediaTimestamp := 10,
                 lastAssistantItem := some "i",
                 markQueue := ["responsePart"],
                 responseStartTimestampTwilio := some 3 }
          OpenAIIn.speechStarted
        = .ok (st1, [TwilioOut.clear (some "s")],
               [OpenAIOut.truncate "i" 0 (10 - 3)])
      ∧ st1.markQueue = [] ∧ st1.lastAssistantItem = none
      ∧ st1.responseStartTimestampTwilio = none
      ∧ sendStep st1 OpenAIIn.speechStarted = .ok (st1, [], []) :=
  interrupt_idempotent
    { streamSid := some "s", latestMediaTimestamp := 10,
      lastAssistantItem := some "i", markQueue := ["responsePart"],
      responseStartTimestampTwilio := some 3 }
    "i" 3 rfl (by decide) (by decide) rfl

/-- Witness for C8 (amended) at a concrete session. -/
theorem itemClear_amended_witness :
    sendStep { streamSid := some "s", latestMediaTimestamp := 0,
               lastAssistantItem := some "i1",
               markQueue := ["responsePart"],
               responseStartTimestampTwilio := some 0 }
        OpenAIIn.responseDone
      = .ok ({ streamSid := some "s", latestMediaTimestamp := 0,
               lastAssistantItem := some "i1",
               markQueue := ["responsePart"],
               responseStartTimestampTwilio := some 0 }, [], [])
    ∧ (handleSpeechStartedEvent
        { streamSid := some "s", latestMediaTimestamp := 0,
          lastAssistantItem := some "i1",
          markQueue := ["responsePart"],
          responseStartTimestampTwilio := some 0 }).1.lastAssistantItem
        = none :=
  itemClear_amended
    { streamSid := some "s", latestMediaTimestamp := 0,
      lastAssistantItem := some "i1", markQueue := ["responsePart"],
      responseStartTimestampTwilio := some 0 }
    (by decide) (by decide)

/-- Witness for C9 at the canonical base64 input `"QQ=="`. -/
theorem b64_passthrough_witness :
    ∃ st' outs aiOuts,
      sendStep initialState (OpenAIIn.audioDelta ['Q', 'Q', '=', '='] none)
        = .ok (st', outs, aiOuts)
      ∧ outs.head?
          = some (TwilioOut.media initialState.streamSid
                    ['Q', 'Q', '=', '=']) :=
  b64_passthrough initialState ['Q', 'Q', '=', '='] [65] none rfl

/-- Witness for C10 at the initial session state. -/
theorem nullSid_delta_witness :
    ∃ st',
      sendStep initialState (OpenAIIn.audioDelta ['Q', 'Q', '=', '='] none)
        = .ok (st', [TwilioOut.media none (encodeB64 [65])], [])
      ∧ st'.markQueue = initialState.markQueue
      ∧ (initialState.markQueue = [] → hasOutstanding st' = false) :=
  nullSid_delta initialState ['Q', 'Q', '=', '='] [65] none rfl rfl
